import Mathlib

/-!
Shallow embedding of
`autoPyTorch/pipeline/components/setup/lr_scheduler/CosineAnnealingWarmRestarts.py`
from the Auto-PyTorch repository, together with models of the external
collaborators the file calls into (the torch learning-rate-schedule
constructor and the ConfigSpace hyperparameter library), and proofs of the
specified properties of the component.

Numeric values that flow through the component (`T_0`, `T_mult`) are modelled
as rationals; Python `int()` is truncation toward zero (`pyInt`).
-/

namespace AutoPyTorch

/-- Handle standing for an optimizer object supplied by the surrounding
pipeline; the component never inspects it, so only identity matters. -/
structure Optimizer where
  id : Nat
deriving DecidableEq, Repr

/-- Values that may appear in the dependency dictionary passed to `fit`:
either a usable optimizer object or some other Python value. -/
inductive PyValue where
  | opt (o : Optimizer)
  | other (tag : Nat)
deriving DecidableEq, Repr

/-- Errors surfaced by the component and its collaborators. -/
inductive PyError where
  | missingDependencyError
  | valueError
  | invalidRangeError
deriving DecidableEq, Repr

/-- The dependency dictionary `X : Dict[str, Any]`. -/
abbrev Dict := List (String × PyValue)

/-- Python `int()` applied to a rational value: truncation toward zero. -/
def pyInt (q : ℚ) : ℤ := if 0 ≤ q then ⌊q⌋ else ⌈q⌉

/-- Model of the external `torch.optim.lr_scheduler.CosineAnnealingWarmRestarts`
schedule object: the optimizer it is bound to and the two integer
parameters it was constructed with. -/
structure TorchCosineAnnealingWarmRestarts where
  optimizer : Optimizer
  T_0 : ℤ
  T_mult : ℤ
deriving DecidableEq, Repr

/-- Constructor of the external torch schedule. Per the external library's
contract it rejects a non-positive `T_0` and a `T_mult` below 1 with a
`ValueError`; otherwise it returns the schedule bound to the optimizer. -/
def TorchCosineAnnealingWarmRestarts.make (optimizer : Optimizer) (t0 tmult : ℤ) :
    Except PyError TorchCosineAnnealingWarmRestarts :=
  if t0 ≤ 0 then .error .valueError
  else if tmult < 1 then .error .valueError
  else .ok ⟨optimizer, t0, tmult⟩

/-- The component instance: hyperparameters `T_0` and `T_mult`, the optional
random-state handle, and the `scheduler` slot (`none` until `fit` succeeds). -/
structure CosineAnnealingWarmRestarts where
  T_0 : ℚ
  T_mult : ℚ
  random_state : Option Nat
  scheduler : Option TorchCosineAnnealingWarmRestarts
deriving DecidableEq, Repr

/-- The constructor `__init__`: stores the arguments verbatim and sets
`scheduler` to `None`. -/
def CosineAnnealingWarmRestarts.init (t0 tmult : ℚ) (rs : Option Nat) :
    CosineAnnealingWarmRestarts :=
  { T_0 := t0, T_mult := tmult, random_state := rs, scheduler := none }

/-- Looks up a usable optimizer in the dependency dictionary: the entry at key
`"optimizer"` when it is present and is an optimizer object. -/
def getOptimizer (X : Dict) : Option Optimizer :=
  match X.lookup "optimizer" with
  | some (.opt o) => some o
  | _ => none

/-- Modelled from the spec: `check_requirements`, inherited from
`BaseLRComponent` in `base_scheduler.py` (a repository file not under `src/`),
fails with `MissingDependencyError` when the dependency mapping lacks a usable
`"optimizer"` entry, and succeeds otherwise; `y` is ignored. -/
def CosineAnnealingWarmRestarts.check_requirements
    (_self : CosineAnnealingWarmRestarts) (X : Dict) (_y : Option PyValue) :
    Except PyError Unit :=
  if (getOptimizer X).isSome then .ok () else .error .missingDependencyError

/-- The `fit` method: first `check_requirements`, then construction of the
torch schedule from `X['optimizer']`, `int(self.T_0)` and `int(self.T_mult)`,
stored in `self.scheduler`; the mutated instance itself is returned. -/
def CosineAnnealingWarmRestarts.fit (self : CosineAnnealingWarmRestarts)
    (X : Dict) (y : Option PyValue) :
    Except PyError CosineAnnealingWarmRestarts :=
  match self.check_requirements X y with
  | .error e => .error e
  | .ok _ =>
    match getOptimizer X with
    | none => .error .missingDependencyError
    | some o =>
      match TorchCosineAnnealingWarmRestarts.make o (pyInt self.T_0) (pyInt self.T_mult) with
      | .error e => .error e
      | .ok sched => .ok { self with scheduler := some sched }

/-- Exception semantics of a `fit` call as a state transformer: a successful
call yields the mutated instance, a raising call leaves the instance as it
was (the source assigns `self.scheduler` only after every fallible step). -/
def CosineAnnealingWarmRestarts.fitState (self : CosineAnnealingWarmRestarts)
    (X : Dict) (y : Option PyValue) : CosineAnnealingWarmRestarts :=
  match self.fit X y with
  | .ok s => s
  | .error _ => self

/-- Runs a sequence of `fit` calls on an instance. -/
def runFits (c : CosineAnnealingWarmRestarts) (xs : List Dict) :
    CosineAnnealingWarmRestarts :=
  xs.foldl (fun s X => s.fitState X none) c

/-- Whether a `fit` call succeeds; it depends only on the hyperparameters the
instance was constructed with and on the dependency dictionary. -/
def fitOk (t0 tmult : ℚ) (X : Dict) : Bool :=
  ((CosineAnnealingWarmRestarts.init t0 tmult none).fit X none).isOk

/-- The static metadata mapping returned by `get_properties`. -/
structure SchedulerProperties where
  shortname : String
  name : String
  cyclic : Bool
deriving DecidableEq, Repr

/-- The static method `get_properties`: ignores its argument and returns the
fixed metadata triple. -/
def CosineAnnealingWarmRestarts.get_properties (_dataset_properties : Option Dict) :
    SchedulerProperties :=
  { shortname := "CosineAnnealingWarmRestarts"
    name := "Cosine Annealing WarmRestarts"
    cyclic := true }

/-- Model of a ConfigSpace hyperparameter: either an integer-valued or a
real-valued uniform parameter with a name, bounds and a default. -/
inductive Hyperparameter where
  | uniformInt (name : String) (lower upper default_value : ℤ)
  | uniformFloat (name : String) (lower upper default_value : ℚ)
deriving DecidableEq, Repr

/-- Model of the external `UniformIntegerHyperparameter` constructor: per the
contract of the external search-space library it fails with an
`InvalidRangeError` when the lower bound exceeds the upper bound or the
default lies outside the bounds. -/
def UniformIntegerHyperparameter (name : String) (lower upper default_value : ℤ) :
    Except PyError Hyperparameter :=
  if upper < lower then .error .invalidRangeError
  else if default_value < lower ∨ upper < default_value then .error .invalidRangeError
  else .ok (.uniformInt name lower upper default_value)

/-- Model of the external `UniformFloatHyperparameter` constructor, with the
same range contract as the integer one. -/
def UniformFloatHyperparameter (name : String) (lower upper default_value : ℚ) :
    Except PyError Hyperparameter :=
  if upper < lower then .error .invalidRangeError
  else if default_value < lower ∨ upper < default_value then .error .invalidRangeError
  else .ok (.uniformFloat name lower upper default_value)

/-- Model of a ConfigSpace `ConfigurationSpace`: the hyperparameters it holds,
in insertion order. -/
structure ConfigurationSpace where
  hyperparameters : List Hyperparameter
deriving DecidableEq, Repr

/-- The static method `get_hyperparameter_search_space`: builds the `T_0`
integer hyperparameter and the `T_mult` float hyperparameter from the supplied
`((lower, upper), default)` pairs and packages them into a configuration
space; the dataset-properties argument is ignored. -/
def CosineAnnealingWarmRestarts.get_hyperparameter_search_space
    (_dataset_properties : Option Dict)
    (t0 : (ℤ × ℤ) × ℤ) (tmult : (ℚ × ℚ) × ℚ) :
    Except PyError ConfigurationSpace :=
  match UniformIntegerHyperparameter "T_0" t0.1.1 t0.1.2 t0.2 with
  | .error e => .error e
  | .ok h0 =>
    match UniformFloatHyperparameter "T_mult" tmult.1.1 tmult.1.2 tmult.2 with
    | .error e => .error e
    | .ok h1 => .ok { hyperparameters := [h0, h1] }

/-- `get_hyperparameter_search_space` applied to its default arguments
`T_0 = ((1, 20), 1)` and `T_mult = ((1.0, 2.0), 1.0)`. -/
def default_search_space : Except PyError ConfigurationSpace :=
  CosineAnnealingWarmRestarts.get_hyperparameter_search_space none
    ((1, 20), 1) ((1, 2), 1)

/-- The sample value `3/2` from the interior of the default `T_mult` range,
given in normalized form so that it evaluates by kernel reduction. -/
def sampleTmult : ℚ := ⟨3, 2, by decide, by decide⟩

/-! ### Helper lemmas -/

/-- When the dependency mapping lacks a usable optimizer, `fit` raises
`MissingDependencyError` from the requirement check. -/
theorem fit_of_getOptimizer_none {c : CosineAnnealingWarmRestarts} {X : Dict}
    {y : Option PyValue} (h : getOptimizer X = none) :
    c.fit X y = .error .missingDependencyError := by
  simp [CosineAnnealingWarmRestarts.fit, CosineAnnealingWarmRestarts.check_requirements, h]

/-- With a usable optimizer present, `fit` is schedule construction followed by
storing the schedule in the instance. -/
theorem fit_of_getOptimizer_some {c : CosineAnnealingWarmRestarts} {X : Dict}
    {y : Option PyValue} {o : Optimizer} (h : getOptimizer X = some o) :
    c.fit X y =
      (TorchCosineAnnealingWarmRestarts.make o (pyInt c.T_0) (pyInt c.T_mult)).map
        (fun sched => { c with scheduler := some sched }) := by
  cases hm : TorchCosineAnnealingWarmRestarts.make o (pyInt c.T_0) (pyInt c.T_mult) <;>
    simp [CosineAnnealingWarmRestarts.fit, CosineAnnealingWarmRestarts.check_requirements,
      h, hm, Except.map]

/-- The torch constructor succeeds exactly on a positive `T_0` and a `T_mult`
of at least 1. -/
theorem make_of_valid {o : Optimizer} {t0 tm : ℤ} (h0 : 0 < t0) (h1 : 1 ≤ tm) :
    TorchCosineAnnealingWarmRestarts.make o t0 tm = .ok ⟨o, t0, tm⟩ := by
  unfold TorchCosineAnnealingWarmRestarts.make
  rw [if_neg (by omega), if_neg (by omega)]

/-- A successful `fit` call happened with an optimizer present and valid
coerced parameters, and produced exactly the instance with the new schedule
stored. -/
theorem fit_ok_shape {c : CosineAnnealingWarmRestarts} {X : Dict}
    {y : Option PyValue} {s : CosineAnnealingWarmRestarts}
    (h : c.fit X y = .ok s) :
    ∃ o, getOptimizer X = some o ∧ 0 < pyInt c.T_0 ∧ 1 ≤ pyInt c.T_mult ∧
      s = { c with scheduler := some ⟨o, pyInt c.T_0, pyInt c.T_mult⟩ } := by
  cases ho : getOptimizer X with
  | none => rw [fit_of_getOptimizer_none ho] at h; exact absurd h (by simp)
  | some o =>
    rw [fit_of_getOptimizer_some ho] at h
    refine ⟨o, rfl, ?_⟩
    unfold TorchCosineAnnealingWarmRestarts.make at h
    by_cases h0 : pyInt c.T_0 ≤ 0
    · rw [if_pos h0] at h; exact absurd h (by simp [Except.map])
    · rw [if_neg h0] at h
      by_cases h1 : pyInt c.T_mult < 1
      · rw [if_pos h1] at h; exact absurd h (by simp [Except.map])
      · rw [if_neg h1] at h
        simp only [Except.map, Except.ok.injEq] at h
        exact ⟨by omega, by omega, h.symm⟩

/-- With an optimizer present and valid coerced parameters, `fit` returns the
instance carrying the freshly constructed schedule. -/
theorem fit_eq_ok {c : CosineAnnealingWarmRestarts} {X : Dict}
    {y : Option PyValue} {o : Optimizer}
    (ho : getOptimizer X = some o) (h0 : 0 < pyInt c.T_0) (h1 : 1 ≤ pyInt c.T_mult) :
    c.fit X y = .ok { c with scheduler := some ⟨o, pyInt c.T_0, pyInt c.T_mult⟩ } := by
  rw [fit_of_getOptimizer_some ho, make_of_valid h0 h1]
  rfl

/-- A raising `fit` call leaves the instance unchanged. -/
theorem fitState_of_error {c : CosineAnnealingWarmRestarts} {X : Dict}
    {y : Option PyValue} {e : PyError} (h : c.fit X y = .error e) :
    c.fitState X y = c := by
  unfold CosineAnnealingWarmRestarts.fitState
  rw [h]

/-- A successful `fit` call moves the instance to the returned state. -/
theorem fitState_of_ok {c : CosineAnnealingWarmRestarts} {X : Dict}
    {y : Option PyValue} {s : CosineAnnealingWarmRestarts} (h : c.fit X y = .ok s) :
    c.fitState X y = s := by
  unfold CosineAnnealingWarmRestarts.fitState
  rw [h]

/-- `fit` never changes `T_0`, `T_mult` or `random_state`. -/
theorem fitState_frame (c : CosineAnnealingWarmRestarts) (X : Dict) (y : Option PyValue) :
    (c.fitState X y).T_0 = c.T_0 ∧ (c.fitState X y).T_mult = c.T_mult ∧
      (c.fitState X y).random_state = c.random_state := by
  cases h : c.fit X y with
  | error e => rw [fitState_of_error h]; exact ⟨rfl, rfl, rfl⟩
  | ok s =>
    rw [fitState_of_ok h]
    obtain ⟨o, -, -, -, rfl⟩ := fit_ok_shape h
    exact ⟨rfl, rfl, rfl⟩

/-- Whether `fit` succeeds depends only on the hyperparameters and the
dependency dictionary, not on the rest of the instance state. -/
theorem fit_isOk_eq (c : CosineAnnealingWarmRestarts) (X : Dict) (y : Option PyValue) :
    (c.fit X y).isOk = fitOk c.T_0 c.T_mult X := by
  unfold fitOk
  cases ho : getOptimizer X with
  | none =>
    rw [fit_of_getOptimizer_none ho, fit_of_getOptimizer_none ho]
  | some o =>
    rw [fit_of_getOptimizer_some ho, fit_of_getOptimizer_some (c := .init c.T_0 c.T_mult none) ho]
    simp only [CosineAnnealingWarmRestarts.init]
    cases TorchCosineAnnealingWarmRestarts.make o (pyInt c.T_0) (pyInt c.T_mult) <;> rfl

/-- One `fit` call, seen on the `scheduler` slot: the slot is filled afterwards
exactly when it was already filled or the call succeeded. -/
theorem fitState_scheduler_ne_none (c : CosineAnnealingWarmRestarts) (X : Dict) :
    ((c.fitState X none).scheduler ≠ none ↔
      (c.scheduler ≠ none ∨ fitOk c.T_0 c.T_mult X = true)) := by
  have hok := fit_isOk_eq c X none
  cases h : c.fit X none with
  | error e =>
    rw [fitState_of_error h]
    rw [h] at hok
    simp [Except.isOk, Except.toBool] at hok
    simp [← hok]
  | ok s =>
    rw [fitState_of_ok h]
    rw [h] at hok
    simp [Except.isOk, Except.toBool] at hok
    obtain ⟨o, -, -, -, rfl⟩ := fit_ok_shape h
    simp [← hok]

/-- Running a sequence of `fit` calls fills the `scheduler` slot exactly when
it was already filled or some call in the sequence succeeded. -/
theorem runFits_scheduler_iff (xs : List Dict) (c : CosineAnnealingWarmRestarts) :
    ((runFits c xs).scheduler ≠ none ↔
      (c.scheduler ≠ none ∨ ∃ X ∈ xs, fitOk c.T_0 c.T_mult X = true)) := by
  induction xs generalizing c with
  | nil => simp [runFits]
  | cons X xs ih =>
    have hstep : runFits c (X :: xs) = runFits (c.fitState X none) xs := rfl
    obtain ⟨h0, h1, -⟩ := fitState_frame c X none
    rw [hstep, ih, h0, h1, fitState_scheduler_ne_none]
    simp only [List.mem_cons]
    constructor
    · rintro (⟨h | h⟩ | ⟨Z, hZ, hfit⟩)
      · exact Or.inl h
      · exact Or.inr ⟨X, Or.inl rfl, h⟩
      · exact Or.inr ⟨Z, Or.inr hZ, hfit⟩
    · rintro (h | ⟨Z, rfl | hZ, hfit⟩)
      · exact Or.inl (Or.inl h)
      · exact Or.inl (Or.inr hfit)
      · exact Or.inr ⟨Z, hZ, hfit⟩

/-! ### Claim theorems -/

/-- C1: for every instance constructed with parameters `T_0` and `T_mult` and
every dependency mapping containing a valid optimizer, a successful `fit`
constructs the underlying cosine-annealing-warm-restarts schedule with restart
length `int(T_0)` and restart-growth factor `int(T_mult)`: both hyperparameters
are coerced to integers before being passed to the schedule constructor. -/
theorem fit_coerces_hyperparameters_to_int
    (t0 tm : ℚ) (rs : Option Nat) (X : Dict) (y : Option PyValue)
    (o : Optimizer) (s : CosineAnnealingWarmRestarts)
    (hopt : getOptimizer X = some o)
    (hfit : (CosineAnnealingWarmRestarts.init t0 tm rs).fit X y = .ok s) :
    s.scheduler = some ⟨o, pyInt t0, pyInt tm⟩ := by
  obtain ⟨o', ho', -, -, rfl⟩ := fit_ok_shape hfit
  rw [hopt] at ho'
  obtain rfl := Option.some.inj ho'
  rfl

/-- Witness for C1: `T_0 = 5`, `T_mult = 2` and a present optimizer yield a
schedule with restart length 5 and growth factor 2. -/
theorem fit_coerces_hyperparameters_to_int_witness :
    (CosineAnnealingWarmRestarts.init 5 2 none).fit [("optimizer", PyValue.opt ⟨0⟩)] none
        = .ok { T_0 := 5, T_mult := 2, random_state := none, scheduler := some ⟨⟨0⟩, 5, 2⟩ } ∧
    ({ T_0 := 5, T_mult := 2, random_state := none, scheduler := some ⟨⟨0⟩, 5, 2⟩ }
        : CosineAnnealingWarmRestarts).scheduler = some ⟨⟨0⟩, 5, 2⟩ := by
  have hfit : (CosineAnnealingWarmRestarts.init 5 2 none).fit
      [("optimizer", PyValue.opt ⟨0⟩)] none
      = .ok { T_0 := 5, T_mult := 2, random_state := none, scheduler := some ⟨⟨0⟩, 5, 2⟩ } := rfl
  have h := fit_coerces_hyperparameters_to_int 5 2 none
    [("optimizer", PyValue.opt ⟨0⟩)] none ⟨0⟩ _ rfl hfit
  exact ⟨hfit, h.trans (by decide)⟩

/-- C2: `fit` on a dependency mapping lacking a usable optimizer raises
`MissingDependencyError` and leaves the instance — in particular its
`scheduler` slot — unchanged. -/
theorem fit_missing_optimizer_error
    (c : CosineAnnealingWarmRestarts) (X : Dict) (y : Option PyValue)
    (h : getOptimizer X = none) :
    c.fit X y = .error .missingDependencyError ∧ c.fitState X y = c :=
  ⟨fit_of_getOptimizer_none h, fitState_of_error (fit_of_getOptimizer_none h)⟩

/-- Witness for C2: a mapping whose `"optimizer"` entry is not an optimizer
makes `fit` raise and leaves the fresh instance intact. -/
theorem fit_missing_optimizer_error_witness :
    (CosineAnnealingWarmRestarts.init 5 2 none).fit [("optimizer", PyValue.other 0)] none
        = .error .missingDependencyError ∧
    (CosineAnnealingWarmRestarts.init 5 2 none).fitState [("optimizer", PyValue.other 0)] none
        = CosineAnnealingWarmRestarts.init 5 2 none :=
  fit_missing_optimizer_error (CosineAnnealingWarmRestarts.init 5 2 none)
    [("optimizer", PyValue.other 0)] none rfl

/-- C3: `scheduler` is `none` right after construction; after any sequence of
`fit` calls it is non-null exactly when at least one call succeeded; and a
successful `fit` stores a schedule that does not depend on the previously
stored one (replacement, not accumulation). -/
theorem scheduler_iff_fit_succeeded (t0 tm : ℚ) (rs : Option Nat) (xs : List Dict) :
    (CosineAnnealingWarmRestarts.init t0 tm rs).scheduler = none ∧
    ((runFits (CosineAnnealingWarmRestarts.init t0 tm rs) xs).scheduler ≠ none ↔
      ∃ X ∈ xs, fitOk t0 tm X = true) ∧
    (∀ (c₁ c₂ : CosineAnnealingWarmRestarts) (X : Dict) (y : Option PyValue)
        (s₁ s₂ : CosineAnnealingWarmRestarts),
      c₁.T_0 = c₂.T_0 → c₁.T_mult = c₂.T_mult →
      c₁.fit X y = .ok s₁ → c₂.fit X y = .ok s₂ → s₁.scheduler = s₂.scheduler) := by
  refine ⟨rfl, ?_, ?_⟩
  · rw [runFits_scheduler_iff]
    simp [CosineAnnealingWarmRestarts.init]
  · rintro c₁ c₂ X y s₁ s₂ h0 h1 hf₁ hf₂
    obtain ⟨o₁, ho₁, -, -, rfl⟩ := fit_ok_shape hf₁
    obtain ⟨o₂, ho₂, -, -, rfl⟩ := fit_ok_shape hf₂
    rw [ho₁] at ho₂
    obtain rfl := Option.some.inj ho₂
    simp [h0, h1]

/-- Witness for C3: a fresh instance has no schedule, one successful call
fills the slot, and two instances differing only in prior state end up with
the same stored schedule. -/
theorem scheduler_iff_fit_succeeded_witness :
    (CosineAnnealingWarmRestarts.init 5 2 none).scheduler = none ∧
    (runFits (CosineAnnealingWarmRestarts.init 5 2 none)
        [[("optimizer", PyValue.opt ⟨0⟩)]]).scheduler ≠ none ∧
    ({ T_0 := 5, T_mult := 2, random_state := none, scheduler := some ⟨⟨0⟩, 5, 2⟩ }
        : CosineAnnealingWarmRestarts).scheduler
      = ({ T_0 := 5, T_mult := 2, random_state := some 7, scheduler := some ⟨⟨0⟩, 5, 2⟩ }
        : CosineAnnealingWarmRestarts).scheduler := by
  have h := scheduler_iff_fit_succeeded 5 2 none [[("optimizer", PyValue.opt ⟨0⟩)]]
  refine ⟨h.1, ?_, ?_⟩
  · exact h.2.1.mpr ⟨[("optimizer", PyValue.opt ⟨0⟩)], by simp, rfl⟩
  · exact h.2.2
      (CosineAnnealingWarmRestarts.init 5 2 none)
      { T_0 := 5, T_mult := 2, random_state := some 7, scheduler := some ⟨⟨9⟩, 3, 3⟩ }
      [("optimizer", PyValue.opt ⟨0⟩)] none
      { T_0 := 5, T_mult := 2, random_state := none, scheduler := some ⟨⟨0⟩, 5, 2⟩ }
      { T_0 := 5, T_mult := 2, random_state := some 7, scheduler := some ⟨⟨0⟩, 5, 2⟩ }
      rfl rfl rfl rfl

/-- C4: with a usable optimizer present and a valid `(T_0, T_mult)` pair —
one the external schedule constructor accepts after coercion — `fit` succeeds,
the returned value carries a non-null schedule, and that returned value is the
instance itself in its post-call state. -/
theorem fit_succeeds_and_returns_self
    (c : CosineAnnealingWarmRestarts) (X : Dict) (y : Option PyValue) (o : Optimizer)
    (hopt : getOptimizer X = some o)
    (h0 : 0 < pyInt c.T_0) (h1 : 1 ≤ pyInt c.T_mult) :
    ∃ s, c.fit X y = .ok s ∧ s.scheduler ≠ none ∧ c.fitState X y = s := by
  refine ⟨{ c with scheduler := some ⟨o, pyInt c.T_0, pyInt c.T_mult⟩ }, ?_, ?_, ?_⟩
  · exact fit_eq_ok hopt h0 h1
  · simp
  · exact fitState_of_ok (fit_eq_ok hopt h0 h1)

/-- Witness for C4: the pair `(5, 2)` with a present optimizer gives a
successful, schedule-carrying, self-returning `fit`. -/
theorem fit_succeeds_and_returns_self_witness :
    getOptimizer [("optimizer", PyValue.opt ⟨0⟩)] = some ⟨0⟩ ∧
    0 < pyInt 5 ∧ 1 ≤ pyInt 2 ∧
    ∃ s, (CosineAnnealingWarmRestarts.init 5 2 none).fit
        [("optimizer", PyValue.opt ⟨0⟩)] none = .ok s ∧
      s.scheduler ≠ none ∧
      (CosineAnnealingWarmRestarts.init 5 2 none).fitState
        [("optimizer", PyValue.opt ⟨0⟩)] none = s :=
  ⟨rfl, by decide, by decide,
    fit_succeeds_and_returns_self (CosineAnnealingWarmRestarts.init 5 2 none)
      [("optimizer", PyValue.opt ⟨0⟩)] none ⟨0⟩ rfl (by decide) (by decide)⟩

/-- Unfolding equation for `get_hyperparameter_search_space` on explicit
`((lower, upper), default)` tuples. -/
theorem get_hyperparameter_search_space_eq
    (d : Option Dict) (lo hi df : ℤ) (lof hif dff : ℚ) :
    CosineAnnealingWarmRestarts.get_hyperparameter_search_space d
        ((lo, hi), df) ((lof, hif), dff)
      = match UniformIntegerHyperparameter "T_0" lo hi df with
        | .error e => .error e
        | .ok h0 =>
          match UniformFloatHyperparameter "T_mult" lof hif dff with
          | .error e => .error e
          | .ok h1 => .ok { hyperparameters := [h0, h1] } := rfl

/-- The integer hyperparameter constructor rejects inverted bounds and
out-of-range defaults. -/
theorem UniformIntegerHyperparameter_invalid {n : String} {lo hi df : ℤ}
    (h : hi < lo ∨ df < lo ∨ hi < df) :
    UniformIntegerHyperparameter n lo hi df = .error .invalidRangeError := by
  unfold UniformIntegerHyperparameter
  by_cases hb : hi < lo
  · rw [if_pos hb]
  · rw [if_neg hb, if_pos (by
      rcases h with h | h | h
      exacts [absurd h hb, Or.inl h, Or.inr h])]

/-- The integer hyperparameter constructor succeeds on consistent input. -/
theorem UniformIntegerHyperparameter_valid {n : String} {lo hi df : ℤ}
    (hlh : lo ≤ hi) (hld : lo ≤ df) (hdh : df ≤ hi) :
    UniformIntegerHyperparameter n lo hi df = .ok (.uniformInt n lo hi df) := by
  unfold UniformIntegerHyperparameter
  rw [if_neg (not_lt.mpr hlh),
    if_neg (by simp only [not_or, not_lt]; exact ⟨hld, hdh⟩)]

/-- The float hyperparameter constructor rejects inverted bounds and
out-of-range defaults. -/
theorem UniformFloatHyperparameter_invalid {n : String} {lo hi df : ℚ}
    (h : hi < lo ∨ df < lo ∨ hi < df) :
    UniformFloatHyperparameter n lo hi df = .error .invalidRangeError := by
  unfold UniformFloatHyperparameter
  by_cases hb : hi < lo
  · rw [if_pos hb]
  · rw [if_neg hb, if_pos (by
      rcases h with h | h | h
      exacts [absurd h hb, Or.inl h, Or.inr h])]

/-- The float hyperparameter constructor succeeds on consistent input. -/
theorem UniformFloatHyperparameter_valid {n : String} {lo hi df : ℚ}
    (hlh : lo ≤ hi) (hld : lo ≤ df) (hdh : df ≤ hi) :
    UniformFloatHyperparameter n lo hi df = .ok (.uniformFloat n lo hi df) := by
  unfold UniformFloatHyperparameter
  rw [if_neg (not_lt.mpr hlh),
    if_neg (by simp only [not_or, not_lt]; exact ⟨hld, hdh⟩)]

/-- C5: `get_hyperparameter_search_space` with its default arguments returns a
space holding exactly the integer parameter `T_0` with bounds 1 to 20 and
default 1 and the real parameter `T_mult` with bounds 1 to 2 and default 1. -/
theorem default_search_space_spec :
    default_search_space
      = .ok { hyperparameters :=
          [.uniformInt "T_0" 1 20 1, .uniformFloat "T_mult" 1 2 1] } := by
  rfl

/-- C6: `get_properties` ignores its argument and always returns the fixed
metadata triple; in the embedding it is a total function, so it raises
nothing and is independent of any instance state. -/
theorem get_properties_pure (d d' : Option Dict) :
    CosineAnnealingWarmRestarts.get_properties d
      = { shortname := "CosineAnnealingWarmRestarts",
          name := "Cosine Annealing WarmRestarts",
          cyclic := true } ∧
    CosineAnnealingWarmRestarts.get_properties d
      = CosineAnnealingWarmRestarts.get_properties d' :=
  ⟨rfl, rfl⟩

/-- C7: fitting with one optimizer and then with a second leaves `scheduler`
bound to a schedule over the second optimizer only. -/
theorem fit_last_write_wins
    (c : CosineAnnealingWarmRestarts) (X₁ X₂ : Dict) (o₁ o₂ : Optimizer)
    (h₁ : getOptimizer X₁ = some o₁) (h₂ : getOptimizer X₂ = some o₂)
    (h0 : 0 < pyInt c.T_0) (h1 : 1 ≤ pyInt c.T_mult) :
    ((c.fitState X₁ none).fitState X₂ none).scheduler
      = some ⟨o₂, pyInt c.T_0, pyInt c.T_mult⟩ := by
  rw [fitState_of_ok (fit_eq_ok (y := none) h₁ h0 h1)]
  rw [fitState_of_ok (fit_eq_ok
    (c := { c with scheduler := some ⟨o₁, pyInt c.T_0, pyInt c.T_mult⟩ })
    (y := none) h₂ h0 h1)]

/-- Witness for C7: fitting with optimizer 1 and then optimizer 2 leaves the
schedule bound to optimizer 2. -/
theorem fit_last_write_wins_witness :
    (((CosineAnnealingWarmRestarts.init 5 2 none).fitState
        [("optimizer", PyValue.opt ⟨1⟩)] none).fitState
        [("optimizer", PyValue.opt ⟨2⟩)] none).scheduler = some ⟨⟨2⟩, 5, 2⟩ := by
  have h := fit_last_write_wins (CosineAnnealingWarmRestarts.init 5 2 none)
    [("optimizer", PyValue.opt ⟨1⟩)] [("optimizer", PyValue.opt ⟨2⟩)]
    ⟨1⟩ ⟨2⟩ rfl rfl (by decide) (by decide)
  exact h.trans (by decide)

/-- C8: `get_hyperparameter_search_space` fails with `InvalidRangeError`
whenever the bounds of `T_0` or of `T_mult` are inverted or a default lies
outside its bounds, and succeeds on consistent ranges. -/
theorem search_space_range_validation
    (d : Option Dict) (lo hi df : ℤ) (lof hif dff : ℚ) :
    ((hi < lo ∨ df < lo ∨ hi < df ∨ hif < lof ∨ dff < lof ∨ hif < dff) →
      CosineAnnealingWarmRestarts.get_hyperparameter_search_space d
          ((lo, hi), df) ((lof, hif), dff)
        = .error .invalidRangeError) ∧
    ((lo ≤ hi ∧ lo ≤ df ∧ df ≤ hi ∧ lof ≤ hif ∧ lof ≤ dff ∧ dff ≤ hif) →
      CosineAnnealingWarmRestarts.get_hyperparameter_search_space d
          ((lo, hi), df) ((lof, hif), dff)
        = .ok { hyperparameters :=
            [.uniformInt "T_0" lo hi df, .uniformFloat "T_mult" lof hif dff] }) := by
  constructor
  · intro h
    rw [get_hyperparameter_search_space_eq]
    by_cases hI : hi < lo ∨ df < lo ∨ hi < df
    · rw [UniformIntegerHyperparameter_invalid hI]
    · have hF : hif < lof ∨ dff < lof ∨ hif < dff := by tauto
      push_neg at hI
      rw [UniformIntegerHyperparameter_valid hI.1 hI.2.1 hI.2.2,
        UniformFloatHyperparameter_invalid hF]
  · rintro ⟨ha, hb, hc, hd, he, hf⟩
    rw [get_hyperparameter_search_space_eq,
      UniformIntegerHyperparameter_valid ha hb hc,
      UniformFloatHyperparameter_valid hd he hf]

/-- Witness for C8: inverted `T_0` bounds are rejected; the default ranges are
accepted. -/
theorem search_space_range_validation_witness :
    (CosineAnnealingWarmRestarts.get_hyperparameter_search_space none
        ((5, 2), 1) ((1, 2), 1) = .error .invalidRangeError) ∧
    (CosineAnnealingWarmRestarts.get_hyperparameter_search_space none
        ((1, 20), 1) ((1, 2), 1)
      = .ok { hyperparameters :=
          [.uniformInt "T_0" 1 20 1, .uniformFloat "T_mult" 1 2 1] }) :=
  ⟨(search_space_range_validation none 5 2 1 1 2 1).1 (Or.inl (by decide)),
    (search_space_range_validation none 1 20 1 1 2 1).2
      ⟨by decide, by decide, by decide, by decide, by decide, by decide⟩⟩

/-- C9: a `fit` call, successful or not, changes at most the `scheduler`
field: the post-call instance is the pre-call instance with its `scheduler`
slot updated, so `T_0`, `T_mult` and `random_state` are untouched; the
embedding is a pure function, matching a `fit` that performs no I/O. -/
theorem fit_mutates_only_scheduler
    (c : CosineAnnealingWarmRestarts) (X : Dict) (y : Option PyValue) :
    c.fitState X y = { c with scheduler := (c.fitState X y).scheduler } := by
  obtain ⟨h0, h1, h2⟩ := fitState_frame c X y
  cases hfs : c.fitState X y with
  | mk a b r s =>
    rw [hfs] at h0 h1 h2
    simp only at h0 h1 h2
    rw [h0, h1, h2]

/-- C10: every `T_mult` value in the half-open interval from 1 to 2 is
truncated by `int()` to 1, so `fit` constructs the very same schedule for it
as for `T_mult = 1`. -/
theorem tmult_range_truncates_to_one (v : ℚ) (hv1 : 1 ≤ v) (hv2 : v < 2) :
    pyInt v = 1 ∧
    ∀ (t0 : ℚ) (rs : Option Nat) (X : Dict) (y : Option PyValue),
      Except.map (fun s => s.scheduler)
          ((CosineAnnealingWarmRestarts.init t0 v rs).fit X y)
        = Except.map (fun s => s.scheduler)
          ((CosineAnnealingWarmRestarts.init t0 1 rs).fit X y) := by
  have hv : pyInt v = 1 := by
    have h0 : (0 : ℚ) ≤ v := le_trans zero_le_one hv1
    rw [pyInt, if_pos h0, Int.floor_eq_iff]
    refine ⟨by exact_mod_cast hv1, by push_cast; linarith⟩
  refine ⟨hv, ?_⟩
  intro t0 rs X y
  have hone : pyInt (1 : ℚ) = 1 := by decide
  cases ho : getOptimizer X with
  | none => rw [fit_of_getOptimizer_none ho, fit_of_getOptimizer_none ho]
  | some o =>
    rw [fit_of_getOptimizer_some ho, fit_of_getOptimizer_some ho]
    simp only [CosineAnnealingWarmRestarts.init]
    rw [hv, hone]
    cases TorchCosineAnnealingWarmRestarts.make o (pyInt t0) 1 <;> rfl

/-- Witness for C10: the interior sample value `3/2` is truncated to 1, and
fitting with it yields the same schedule as fitting with `T_mult = 1`. -/
theorem tmult_range_truncates_to_one_witness :
    (1 : ℚ) ≤ sampleTmult ∧ sampleTmult < 2 ∧ pyInt sampleTmult = 1 ∧
    Except.map (fun s => s.scheduler)
        ((CosineAnnealingWarmRestarts.init 5 sampleTmult none).fit
          [("optimizer", PyValue.opt ⟨0⟩)] none)
      = Except.map (fun s => s.scheduler)
        ((CosineAnnealingWarmRestarts.init 5 1 none).fit
          [("optimizer", PyValue.opt ⟨0⟩)] none) := by
  have h := tmult_range_truncates_to_one sampleTmult (by decide) (by decide)
  exact ⟨by decide, by decide, h.1,
    h.2 5 none [("optimizer", PyValue.opt ⟨0⟩)] none⟩

end AutoPyTorch
